import Mathlib

/-!
Verification of the bounded research pipeline in `agents.py`.

The embedding models:
- the global search counter (`_global_search_count`) as an explicit `Nat`
  threaded through the operations `reset_search_counter`,
  `increment_search_counter`, `get_search_count`;
- `LinkUpSearchTool._run` as a pure function over the counter, an
  environment record (library availability, API keys) and a provider
  function standing for `LinkupClient.search`; the returned record also
  carries the list of calls actually issued to the provider;
- `create_research_crew` as a fallible constructor returning the Python
  exception (modelled as a type-name string plus message) it would raise;
- `run_research` as a fuel-indexed recursion over the retry loop, where
  one pipeline attempt (crew construction plus `crew.kickoff()`) is an
  oracle function of the query, the attempt index and the counter value,
  and where counter resets, `time.sleep` calls and attempt starts are
  recorded in an event trace.
-/

set_option maxRecDepth 8000

namespace DeepResearch

/-- Maximum searches per session (`_max_searches = 5` in `agents.py`). -/
def max_searches : Nat := 5

/-- Embeds `reset_search_counter`: sets the global counter to 0. -/
def reset_search_counter (_c : Nat) : Nat := 0

/-- Embeds `increment_search_counter`: increments the counter and returns the new value. -/
def increment_search_counter (c : Nat) : Nat := c + 1

/-- Embeds `get_search_count`: reads the counter. -/
def get_search_count (c : Nat) : Nat := c

/-- Environment configuration visible to `agents.py`: whether the
`linkup` import succeeded, and the two environment variables
(`None` models an unset variable). -/
structure Env where
  linkupAvailable : Bool
  geminiApiKey : Option String
  linkupApiKey : Option String
deriving DecidableEq

/-- Python truthiness of `os.getenv` results: `None` and the empty
string are falsy (`if not api_key`). -/
def envTruthy : Option String → Bool
  | none => false
  | some s => !s.isEmpty

/-- A provider function standing for `LinkupClient.search`: maps
(query, depth, output_type) to either a successful response string or
an exception message. -/
def Provider := String → String → String → Except String String

/-- Outcome of one `LinkUpSearchTool._run` call: the returned text, the
counter value afterwards, and the list of (query, depth, output_type)
calls issued to the external provider during this call. -/
structure ToolOutcome where
  text : String
  newCount : Nat
  providerCalls : List (String × String × String)
deriving DecidableEq

/-- The soft-limit message returned when the session budget is exhausted
(f-string at line 87 of `agents.py`). -/
def softLimitMsg : String :=
  "Maximum search limit (" ++ toString max_searches ++ ") reached. Please analyze existing results."

/-- Shallow embedding of `LinkUpSearchTool._run` (agents.py lines 79-122).
The `depth` parameter mirrors the caller-supplied argument, which the
source never reads: the depth sent to the provider is recomputed from
the counter. -/
def LinkUpSearchTool_run (env : Env) (provider : Provider)
    (count : Nat) (query : String) (depth : String) (output_type : String) : ToolOutcome :=
  if env.linkupAvailable = false then
    { text := "Error: LinkupClient is not available. Please install linkup-sdk: pip install linkup-sdk",
      newCount := count, providerCalls := [] }
  else
    let current_count := get_search_count count
    if current_count ≥ max_searches then
      { text := softLimitMsg, newCount := count, providerCalls := [] }
    else if envTruthy env.linkupApiKey = false then
      { text := "Error: LINKUP_API_KEY environment variable not set",
        newCount := count, providerCalls := [] }
    else
      let search_depth := if (current_count + 1) % 3 == 0 then "deep" else "standard"
      match provider query search_depth output_type with
      | Except.error e =>
        { text := "Error occurred while searching: " ++ e, newCount := count,
          providerCalls := [(query, search_depth, output_type)] }
      | Except.ok search_response =>
        let new_count := increment_search_counter count
        let response_str := search_response
        let response_str2 :=
          if response_str.length > 4000 then
            response_str.take 4000 ++
              "\n... [Results truncated at 4000 chars for efficiency, search " ++
              toString new_count ++ " using " ++ search_depth ++ " depth]"
          else response_str
        { text := "Search " ++ toString new_count ++ "/" ++ toString max_searches ++
            " (" ++ search_depth ++ " depth):\n" ++ response_str2,
          newCount := new_count,
          providerCalls := [(query, search_depth, output_type)] }

/-- A sequence of `n` tool invocations starting from counter 0, the call
at step `j` (0-indexed) using `queries j`, caller depth `depths j` and
output type `otypes j`; returns the final counter and the concatenated
provider-call log. -/
def search_seq (env : Env) (provider : Provider)
    (queries depths otypes : Nat → String) : Nat → Nat × List (String × String × String)
  | 0 => (0, [])
  | n + 1 =>
    let prev := search_seq env provider queries depths otypes n
    let r := LinkUpSearchTool_run env provider prev.1 (queries n) (depths n) (otypes n)
    (r.newCount, prev.2 ++ r.providerCalls)

/-- Python exception value as observed by `run_research`: the type name
(what `str(type(e))` exposes, e.g. "ImportError") and `str(e)`. -/
structure Exc where
  tyName : String
  msg : String
deriving DecidableEq

/-- Substring test on character lists (Python `in` on strings). -/
def listContainsSub : List Char → List Char → Bool
  | s, pat =>
    match s with
    | [] => pat.isEmpty
    | _ :: rest => pat.isPrefixOf s || listContainsSub rest pat

/-- Substring test on strings (Python `pat in s`). -/
def strContainsSub (s pat : String) : Bool := listContainsSub s.data pat.data

/-- Python `str.lower`. -/
def toLowerStr (s : String) : String := String.mk (s.data.map Char.toLower)

/-- Constant `max_retries = 3` in `run_research`. -/
def max_retries : Nat := 3

/-- Constant `retry_delay = 3` in `run_research`. -/
def retry_delay : Nat := 3

/-- One pipeline attempt's outcome: `crew.kickoff()` returned a raw
report string, or an exception was raised (by `create_research_crew` or
by the kickoff). -/
inductive AttemptResult where
  | ok (raw : String)
  | exn (e : Exc)
deriving DecidableEq

/-- Observable events of `run_research`: counter resets, `time.sleep`
calls (seconds scaled so that `retry_delay = 3`), and the start of one
crew construction/execution together with the counter value at that
point. -/
inductive Event where
  | resetEv
  | sleepEv (seconds : Nat)
  | attemptRun (attempt : Nat) (countAtStart : Nat)
deriving DecidableEq

/-- An oracle standing for `create_research_crew(query)` followed by
`crew.kickoff()`: from the query, the attempt index and the counter
value at the start, produce the attempt's outcome and the counter value
it leaves behind. -/
def Oracle := String → Nat → Nat → AttemptResult × Nat

/-- Message wrapping a short (< 500 chars) report
(`run_research`, line 262). -/
def limitedContentMsg (raw : String) : String :=
  "Research completed but content seems limited. Here\x27s what was found:\n\n" ++ raw ++
    "\n\n[Note: For more comprehensive results, try refining your query or checking API limits]"

/-- Rate-limit exhaustion message (`run_research`, line 276). -/
def rateLimitExhaustedMsg : String :=
  "API Rate Limited: The Gemini API is currently overloaded. Please try again in a few minutes. For comprehensive research, consider:\n\n1. Breaking your query into smaller, more specific questions\n2. Trying again during off-peak hours\n3. Using more specific search terms"

/-- Import-error exhaustion message (`run_research`, line 285). -/
def importErrorMsg (m : String) : String :=
  "Import Error: " ++ m ++ "\nPlease install linkup-sdk: pip install linkup-sdk"

/-- Configuration-error exhaustion message (`run_research`, line 287). -/
def configErrorMsg (m : String) : String := "Configuration Error: " ++ m

/-- Generic-error exhaustion message (`run_research`, line 289). -/
def genericErrorMsg (m : String) : String :=
  "Error: " ++ m ++ "\n\nTroubleshooting tips:\n1. Try simplifying your query\n2. Check your API key configurations\n3. Ensure stable internet connection\n4. Try breaking complex queries into smaller parts"

/-- Post-loop fallback message (`run_research`, line 291). -/
def maxRetriesMsg : String :=
  "Maximum retries exceeded. Please try again later or contact support if the issue persists."

/-- Rate-limit classification (`run_research`, line 270), applied to the
already-lowercased exception text. -/
def isRateLimitError (error_msg : String) : Bool :=
  strContainsSub error_msg "overloaded" || strContainsSub error_msg "rate limit" ||
    strContainsSub error_msg "quota"

/-- The retry loop of `run_research` (agents.py lines 248-291), indexed
by the remaining loop iterations (`run_research` enters with
`max_retries` remaining and `attempt = 0`); returns the event trace and
the result.  The `Except` codomain records that the Python function
could in principle exit with an exception; proving the result is always
`Except.ok` is the "always returns text" boundary contract. -/
def run_research_loop (oracle : Oracle) (query : String) :
    Nat → Nat → Nat → List Event × Except Exc String
  | 0, _attempt, _count => ([], Except.ok maxRetriesMsg)
  | r + 1, attempt, count =>
    let count1 := reset_search_counter count
    let preEvents := Event.resetEv ::
      (if attempt > 0 then [Event.sleepEv (retry_delay * attempt)] else [])
    let events := preEvents ++ [Event.attemptRun attempt count1]
    match oracle query attempt count1 with
    | (AttemptResult.ok raw, _count2) =>
      if raw.length < 500 then (events, Except.ok (limitedContentMsg raw))
      else (events, Except.ok raw)
    | (AttemptResult.exn e, count2) =>
      let error_msg := toLowerStr e.msg
      if isRateLimitError error_msg then
        if attempt < max_retries - 1 then
          let rest := run_research_loop oracle query r (attempt + 1) count2
          (events ++ Event.sleepEv (retry_delay * (attempt + 1)) :: rest.1, rest.2)
        else (events, Except.ok rateLimitExhaustedMsg)
      else if attempt < max_retries - 1 then
        let rest := run_research_loop oracle query r (attempt + 1) count2
        (events ++ Event.sleepEv retry_delay :: rest.1, rest.2)
      else if strContainsSub e.tyName "ImportError" then
        (events, Except.ok (importErrorMsg e.msg))
      else if strContainsSub e.tyName "ValueError" then
        (events, Except.ok (configErrorMsg e.msg))
      else (events, Except.ok (genericErrorMsg e.msg))

/-- Embeds `run_research(query)` (agents.py lines 243-291), also exposing the
counter value the session starts from. -/
def run_research (oracle : Oracle) (query : String) (count : Nat) :
    List Event × Except Exc String :=
  run_research_loop oracle query max_retries 0 count

/-- Embeds `create_research_crew(query)` (agents.py lines 125-240): the
validation prologue, returning the exception raised, if any.  The query
itself only feeds the agent instructions and cannot fail. -/
def create_research_crew (env : Env) : Except Exc Unit :=
  if env.linkupAvailable = false then
    Except.error ⟨"ImportError", "LinkupClient is not available. Please install linkup-sdk: pip install linkup-sdk"⟩
  else if envTruthy env.geminiApiKey = false then
    Except.error ⟨"ValueError", "GEMINI_API_KEY environment variable not set"⟩
  else if envTruthy env.linkupApiKey = false then
    Except.error ⟨"ValueError", "LINKUP_API_KEY environment variable not set"⟩
  else Except.ok ()

/-- One pipeline attempt as `run_research` performs it: first
`create_research_crew` (whose exceptions become the attempt's
exception), then the crew execution `kick`. -/
def attempt_oracle (env : Env) (kick : Oracle) : Oracle :=
  fun query attempt count =>
    match create_research_crew env with
    | Except.error e => (AttemptResult.exn e, count)
    | Except.ok _ => kick query attempt count

/-- Discriminates counter-reset events. -/
def Event.isReset : Event → Bool
  | Event.resetEv => true
  | _ => false

/-- Discriminates attempt-start events. -/
def Event.isRun : Event → Bool
  | Event.attemptRun _ _ => true
  | _ => false

/-! Helper lemmas. -/

/-- Two strings with different first characters differ. -/
theorem ne_of_head (a b : String) (h : a.data.head? ≠ b.data.head?) : a ≠ b :=
  fun he => h (by rw [he])

/-- C3: once the session counter has reached the maximum (5), a further
`_run` call returns the soft-limit text, leaves the counter unchanged
and issues no provider call. -/
theorem search_limit_soft_stop (env : Env) (provider : Provider) (count : Nat)
    (q d ot : String) (hAvail : env.linkupAvailable = true)
    (hCount : max_searches ≤ count) :
    LinkUpSearchTool_run env provider count q d ot =
      { text := softLimitMsg, newCount := count, providerCalls := [] } := by
  unfold LinkUpSearchTool_run
  simp [hAvail, get_search_count, hCount]

theorem search_limit_soft_stop_witness :
    max_searches ≤ 5 ∧
      LinkUpSearchTool_run ⟨true, some "g", some "k"⟩
          (fun _ _ _ => Except.ok "r") 5 "q" "standard" "searchResults" =
        { text := softLimitMsg, newCount := 5, providerCalls := [] } :=
  ⟨by decide,
   search_limit_soft_stop ⟨true, some "g", some "k"⟩ (fun _ _ _ => Except.ok "r") 5
     "q" "standard" "searchResults" rfl (by decide)⟩

/-- C9: the caller-supplied `depth` argument of `_run` has no effect:
calls differing only in it produce identical outcomes (same text, same
counter, same provider calls with the same depth actually sent). -/
theorem depth_argument_ignored (env : Env) (provider : Provider) (count : Nat)
    (q d1 d2 ot : String) :
    LinkUpSearchTool_run env provider count q d1 ot =
      LinkUpSearchTool_run env provider count q d2 ot := rfl

/-- C5: on a successful provider response `s`, the result text embeds
`s` untouched when `s.length ≤ 4000`, and otherwise embeds exactly the
first 4000 characters of `s` followed by a non-empty truncation marker
naming the sequence number and the depth used. -/
theorem truncation_rule (env : Env) (provider : Provider) (count : Nat)
    (q d ot s : String)
    (hAvail : env.linkupAvailable = true)
    (hCount : count < max_searches)
    (hKey : envTruthy env.linkupApiKey = true)
    (hProv : provider q (if (count + 1) % 3 == 0 then "deep" else "standard") ot =
      Except.ok s) :
    (s.length ≤ 4000 →
      (LinkUpSearchTool_run env provider count q d ot).text =
        "Search " ++ toString (count + 1) ++ "/" ++ toString max_searches ++
          " (" ++ (if (count + 1) % 3 == 0 then "deep" else "standard") ++ " depth):\n" ++ s) ∧
    (4000 < s.length →
      (LinkUpSearchTool_run env provider count q d ot).text =
        "Search " ++ toString (count + 1) ++ "/" ++ toString max_searches ++
          " (" ++ (if (count + 1) % 3 == 0 then "deep" else "standard") ++ " depth):\n" ++
          (s.take 4000 ++
            "\n... [Results truncated at 4000 chars for efficiency, search " ++
            toString (count + 1) ++ " using " ++
            (if (count + 1) % 3 == 0 then "deep" else "standard") ++ " depth]") ∧
      ("\n... [Results truncated at 4000 chars for efficiency, search " ++
          toString (count + 1) ++ " using " ++
          (if (count + 1) % 3 == 0 then "deep" else "standard") ++ " depth]") ≠ "") := by
  have hns : ¬ (count ≥ max_searches) := by omega
  simp only [beq_iff_eq] at hProv
  constructor
  · intro hle
    have hng : ¬ (s.length > 4000) := by omega
    unfold LinkUpSearchTool_run
    simp [hAvail, get_search_count, hns, hKey, hProv, increment_search_counter, hng]
  · intro hgt
    constructor
    · unfold LinkUpSearchTool_run
      simp [hAvail, get_search_count, hns, hKey, hProv, increment_search_counter, hgt]
    · apply ne_of_head
      intro h
      simp at h

theorem truncation_rule_witness :
    "abc".length ≤ 4000 ∧
      (LinkUpSearchTool_run ⟨true, some "g", some "k"⟩ (fun _ _ _ => Except.ok "abc") 0
          "q" "standard" "searchResults").text =
        "Search " ++ toString (0 + 1) ++ "/" ++ toString max_searches ++
          " (" ++ (if (0 + 1) % 3 == 0 then "deep" else "standard") ++ " depth):\n" ++ "abc" :=
  ⟨by decide,
   (truncation_rule ⟨true, some "g", some "k"⟩ (fun _ _ _ => Except.ok "abc") 0
       "q" "standard" "searchResults" "abc" rfl (by decide) (by decide) rfl).1 (by decide)⟩

/-- Helper: a fully successful search sequence of length `n ≤ 5` leaves
the counter at `n` and issues exactly one provider call per step, the
call of step `j` carrying the derived depth for sequence number
`j + 1`. -/
theorem search_seq_spec (env : Env) (provider : Provider)
    (queries depths otypes : Nat → String)
    (hA : env.linkupAvailable = true)
    (hK : envTruthy env.linkupApiKey = true)
    (hP : ∀ q d ot, ∃ s, provider q d ot = Except.ok s) :
    ∀ n, n ≤ max_searches →
      (search_seq env provider queries depths otypes n).1 = n ∧
      (search_seq env provider queries depths otypes n).2 =
        (List.range n).map
          (fun j => (queries j, if (j + 1) % 3 = 0 then "deep" else "standard", otypes j)) := by
  intro n
  induction n with
  | zero => intro _; exact ⟨rfl, rfl⟩
  | succ m ih =>
    intro hle
    have hm := ih (by omega)
    obtain ⟨s, hs⟩ :=
      hP (queries m) (if (m + 1) % 3 = 0 then "deep" else "standard") (otypes m)
    have hns : ¬ (m ≥ max_searches) := by omega
    unfold search_seq
    simp only [hm.1, hm.2]
    unfold LinkUpSearchTool_run
    simp [hA, get_search_count, hns, hK, hs, increment_search_counter, List.range_succ]

/-- C2: for every fully successful sequence of `N ≤ 5` search calls in
one session, the k-th call (1-indexed) reaches the provider with deep
depth iff `k % 3 = 0`, and with standard depth otherwise — regardless
of the caller-supplied depth arguments. -/
theorem depth_escalation_rule (env : Env) (provider : Provider)
    (queries depths otypes : Nat → String)
    (hA : env.linkupAvailable = true)
    (hK : envTruthy env.linkupApiKey = true)
    (hP : ∀ q d ot, ∃ s, provider q d ot = Except.ok s)
    (N k : Nat) (hN : N ≤ max_searches) (hk1 : 1 ≤ k) (hk2 : k ≤ N) :
    ((search_seq env provider queries depths otypes N).2)[k - 1]? =
      some (queries (k - 1), if k % 3 = 0 then "deep" else "standard", otypes (k - 1)) := by
  obtain ⟨-, h2⟩ := search_seq_spec env provider queries depths otypes hA hK hP N hN
  rw [h2]
  have hlt : k - 1 < N := by omega
  have hk : k - 1 + 1 = k := by omega
  rw [List.getElem?_map, List.getElem?_range hlt]
  simp [hk]

theorem depth_escalation_rule_witness :
    (5 : Nat) ≤ max_searches ∧
      ((search_seq ⟨true, some "g", some "k"⟩ (fun _ _ _ => Except.ok "r")
          (fun _ => "q") (fun _ => "caller-depth") (fun _ => "searchResults") 5).2)[3 - 1]? =
        some ("q", if 3 % 3 = 0 then "deep" else "standard", "searchResults") :=
  ⟨by decide,
   depth_escalation_rule ⟨true, some "g", some "k"⟩ (fun _ _ _ => Except.ok "r")
     (fun _ => "q") (fun _ => "caller-depth") (fun _ => "searchResults") rfl rfl
     (fun _ _ _ => ⟨"r", rfl⟩) 5 3 (by decide) (by decide) (by decide)⟩

/-- C7: whenever a pipeline attempt succeeds but the report body is
shorter than 500 characters, `run_research` returns (does not fail) the
limited-content message embedding the body verbatim. -/
theorem limited_content_return (oracle : Oracle) (query : String)
    (r attempt count c2 : Nat) (raw : String)
    (h : oracle query attempt 0 = (AttemptResult.ok raw, c2))
    (hlen : raw.length < 500) :
    (run_research_loop oracle query (r + 1) attempt count).2 =
      Except.ok
        ("Research completed but content seems limited. Here\x27s what was found:\n\n" ++ raw ++
          "\n\n[Note: For more comprehensive results, try refining your query or checking API limits]") := by
  unfold run_research_loop
  simp [reset_search_counter, h, hlen, limitedContentMsg]

theorem limited_content_return_witness :
    (String.mk (List.replicate 300 'x')).length < 500 ∧
      (run_research
          (fun _ _ c => (AttemptResult.ok (String.mk (List.replicate 300 'x')), c)) "q" 0).2 =
        Except.ok
          ("Research completed but content seems limited. Here\x27s what was found:\n\n" ++
            String.mk (List.replicate 300 'x') ++
            "\n\n[Note: For more comprehensive results, try refining your query or checking API limits]") :=
  ⟨by decide,
   limited_content_return
     (fun _ _ c => (AttemptResult.ok (String.mk (List.replicate 300 'x')), c)) "q"
     2 0 0 0 (String.mk (List.replicate 300 'x')) rfl (by decide)⟩

/-- Helper: the retry loop returns `Except.ok` from every state. -/
theorem run_research_loop_ok (oracle : Oracle) (query : String) :
    ∀ r attempt count, ∃ s, (run_research_loop oracle query r attempt count).2 = Except.ok s := by
  intro r
  induction r with
  | zero => intro a c; exact ⟨maxRetriesMsg, rfl⟩
  | succ m ih =>
    intro a c
    unfold run_research_loop
    rcases hor : oracle query a 0 with ⟨res, c2⟩
    rcases res with raw | e
    · by_cases hlen : raw.length < 500 <;>
        simp [reset_search_counter, hor, hlen]
    · by_cases hrl : isRateLimitError (toLowerStr e.msg)
      · by_cases hatt : a < max_retries - 1
        · obtain ⟨s, hs⟩ := ih (a + 1) c2
          simp [reset_search_counter, hor, hrl, hatt]
          exact ⟨s, hs⟩
        · simp [reset_search_counter, hor, hrl, hatt]
      · by_cases hatt : a < max_retries - 1
        · obtain ⟨s, hs⟩ := ih (a + 1) c2
          simp [reset_search_counter, hor, hrl, hatt]
          exact ⟨s, hs⟩
        · by_cases him : strContainsSub e.tyName "ImportError" = true
          · simp [reset_search_counter, hor, hrl, hatt, him]
          · by_cases hva : strContainsSub e.tyName "ValueError" = true <;>
              simp [reset_search_counter, hor, hrl, hatt, him, hva]

/-- C1: for every query (and crew behaviour), `run_research` returns a
string through `Except.ok` on every execution path — no exception
crosses the boundary. -/
theorem run_research_always_returns (oracle : Oracle) (query : String) (count : Nat) :
    ∃ s, (run_research oracle query count).2 = Except.ok s :=
  run_research_loop_ok oracle query max_retries 0 count

/-- Helper: a string of length at least 500 is not the fallback. -/
theorem long_ne_fallback (raw : String) (h : 500 ≤ raw.length) : raw ≠ maxRetriesMsg := by
  intro he
  rw [he] at h
  have hlt : maxRetriesMsg.length < 500 := by decide
  omega

/-- Helper: the limited-content message is not the fallback. -/
theorem limitedContentMsg_ne_fallback (raw : String) : limitedContentMsg raw ≠ maxRetriesMsg := by
  apply ne_of_head
  intro h
  have h2 : some 'R' = some 'M' := h
  simp only [Option.some.injEq] at h2
  exact absurd h2 (by decide)

/-- Helper: the rate-limit exhaustion message is not the fallback. -/
theorem rateLimitMsg_ne_fallback : rateLimitExhaustedMsg ≠ maxRetriesMsg := by
  apply ne_of_head
  intro h
  have h2 : some 'A' = some 'M' := h
  simp only [Option.some.injEq] at h2
  exact absurd h2 (by decide)

/-- Helper: the import-error message is not the fallback. -/
theorem importErrorMsg_ne_fallback (m : String) : importErrorMsg m ≠ maxRetriesMsg := by
  apply ne_of_head
  intro h
  have h2 : some 'I' = some 'M' := h
  simp only [Option.some.injEq] at h2
  exact absurd h2 (by decide)

/-- Helper: the configuration-error message is not the fallback. -/
theorem configErrorMsg_ne_fallback (m : String) : configErrorMsg m ≠ maxRetriesMsg := by
  apply ne_of_head
  intro h
  have h2 : some 'C' = some 'M' := h
  simp only [Option.some.injEq] at h2
  exact absurd h2 (by decide)

/-- Helper: the generic-error message is not the fallback. -/
theorem genericErrorMsg_ne_fallback (m : String) : genericErrorMsg m ≠ maxRetriesMsg := by
  apply ne_of_head
  intro h
  have h2 : some 'E' = some 'M' := h
  simp only [Option.some.injEq] at h2
  exact absurd h2 (by decide)

/-- Helper: from any loop state whose attempt index and remaining fuel
sum to `max_retries` (with fuel left), the result is a string other
than the fallback. -/
theorem run_research_loop_no_fallback (oracle : Oracle) (query : String) :
    ∀ r attempt count, attempt + r = max_retries → 1 ≤ r →
      ∃ s, (run_research_loop oracle query r attempt count).2 = Except.ok s ∧
        (s == maxRetriesMsg) = false := by
  intro r
  induction r with
  | zero => intro a c h1 h2; omega
  | succ m ih =>
    intro a c hsum _
    unfold run_research_loop
    rcases hor : oracle query a 0 with ⟨res, c2⟩
    rcases res with raw | e
    · by_cases hlen : raw.length < 500
      · exact ⟨limitedContentMsg raw, by simp [reset_search_counter, hor, hlen],
          beq_eq_false_iff_ne.mpr (limitedContentMsg_ne_fallback raw)⟩
      · exact ⟨raw, by simp [reset_search_counter, hor, hlen],
          beq_eq_false_iff_ne.mpr (long_ne_fallback raw (by omega))⟩
    · by_cases hrl : isRateLimitError (toLowerStr e.msg)
      · by_cases hatt : a < max_retries - 1
        · have hm1 : 1 ≤ m := by
            simp only [max_retries] at hsum hatt
            omega
          obtain ⟨s, hs, hne⟩ := ih (a + 1) c2 (by omega) hm1
          refine ⟨s, ?_, hne⟩
          simp [reset_search_counter, hor, hrl, hatt]
          exact hs
        · exact ⟨rateLimitExhaustedMsg, by simp [reset_search_counter, hor, hrl, hatt],
            beq_eq_false_iff_ne.mpr rateLimitMsg_ne_fallback⟩
      · by_cases hatt : a < max_retries - 1
        · have hm1 : 1 ≤ m := by
            simp only [max_retries] at hsum hatt
            omega
          obtain ⟨s, hs, hne⟩ := ih (a + 1) c2 (by omega) hm1
          refine ⟨s, ?_, hne⟩
          simp [reset_search_counter, hor, hrl, hatt]
          exact hs
        · by_cases him : strContainsSub e.tyName "ImportError" = true
          · exact ⟨importErrorMsg e.msg,
              by simp [reset_search_counter, hor, hrl, hatt, him],
              beq_eq_false_iff_ne.mpr (importErrorMsg_ne_fallback e.msg)⟩
          · by_cases hva : strContainsSub e.tyName "ValueError" = true
            · exact ⟨configErrorMsg e.msg,
                by simp [reset_search_counter, hor, hrl, hatt, him, hva],
                beq_eq_false_iff_ne.mpr (configErrorMsg_ne_fallback e.msg)⟩
            · exact ⟨genericErrorMsg e.msg,
                by simp [reset_search_counter, hor, hrl, hatt, him, hva],
                beq_eq_false_iff_ne.mpr (genericErrorMsg_ne_fallback e.msg)⟩

/-- C10: `run_research` never returns the post-loop fallback string —
on the final attempt every branch returns from inside the loop, so the
returned text always differs from it. -/
theorem fallback_unreachable (oracle : Oracle) (query : String) (count : Nat) :
    ∃ s, (run_research oracle query count).2 = Except.ok s ∧
      (s == maxRetriesMsg) = false :=
  run_research_loop_no_fallback oracle query max_retries 0 count (by decide) (by decide)

/-- Helper: every trace of the retry loop contains exactly as many
counter-reset events as attempt-start events. -/
theorem filter_reset_eq_run (oracle : Oracle) (query : String) :
    ∀ r attempt count,
      ((run_research_loop oracle query r attempt count).1.filter Event.isReset).length =
        ((run_research_loop oracle query r attempt count).1.filter Event.isRun).length := by
  intro r
  induction r with
  | zero => intro a c; rfl
  | succ m ih =>
    intro a c
    unfold run_research_loop
    rcases hor : oracle query a 0 with ⟨res, c2⟩
    rcases res with raw | e
    · by_cases hlen : raw.length < 500 <;>
        by_cases ha : a > 0 <;>
          simp [reset_search_counter, hor, hlen, ha, Event.isReset, Event.isRun,
            List.filter_append]
    · by_cases hrl : isRateLimitError (toLowerStr e.msg)
      · by_cases hatt : a < max_retries - 1
        · have := ih (a + 1) c2
          by_cases ha : a > 0 <;>
            simp [reset_search_counter, hor, hrl, hatt, ha, Event.isReset, Event.isRun,
              List.filter_append, this]
        · by_cases ha : a > 0 <;>
            simp [reset_search_counter, hor, hrl, hatt, ha, Event.isReset, Event.isRun,
              List.filter_append]
      · by_cases hatt : a < max_retries - 1
        · have := ih (a + 1) c2
          by_cases ha : a > 0 <;>
            simp [reset_search_counter, hor, hrl, hatt, ha, Event.isReset, Event.isRun,
              List.filter_append, this]
        · by_cases him : strContainsSub e.tyName "ImportError" = true <;>
            by_cases hva : strContainsSub e.tyName "ValueError" = true <;>
              by_cases ha : a > 0 <;>
                simp [reset_search_counter, hor, hrl, hatt, him, hva, ha,
                  Event.isReset, Event.isRun, List.filter_append]

/-- Helper: every attempt-start event in a loop trace records counter
value 0. -/
theorem attemptRun_count_zero (oracle : Oracle) (query : String) :
    ∀ r attempt count i c,
      Event.attemptRun i c ∈ (run_research_loop oracle query r attempt count).1 → c = 0 := by
  intro r
  induction r with
  | zero =>
    intro a cc i c h
    simp [run_research_loop] at h
  | succ m ih =>
    intro a cc i c h
    unfold run_research_loop at h
    rcases hor : oracle query a 0 with ⟨res, c2⟩
    rcases res with raw | e
    · by_cases hlen : raw.length < 500 <;>
        by_cases ha : a > 0 <;>
          · simp [reset_search_counter, hor, hlen, ha] at h
            omega
    · by_cases hrl : isRateLimitError (toLowerStr e.msg)
      · by_cases hatt : a < max_retries - 1
        · by_cases ha : a > 0 <;>
            · simp [reset_search_counter, hor, hrl, hatt, ha] at h
              rcases h with h | h
              · omega
              · exact ih (a + 1) c2 i c h
        · by_cases ha : a > 0 <;>
            · simp [reset_search_counter, hor, hrl, hatt, ha] at h
              omega
      · by_cases hatt : a < max_retries - 1
        · by_cases ha : a > 0 <;>
            · simp [reset_search_counter, hor, hrl, hatt, ha] at h
              rcases h with h | h
              · omega
              · exact ih (a + 1) c2 i c h
        · by_cases him : strContainsSub e.tyName "ImportError" = true <;>
            by_cases hva : strContainsSub e.tyName "ValueError" = true <;>
              by_cases ha : a > 0 <;>
                · simp [reset_search_counter, hor, hrl, hatt, him, hva, ha] at h
                  omega

/-- C6: the counter reset sets the counter to exactly 0 and is
idempotent; the retry loop resets once per attempt (reset events and
attempt starts are in bijection) and every attempt — the first as well
as each retry — begins with the counter at 0, so no search budget
carries over between attempts. -/
theorem reset_fresh_budget :
    (∀ c, reset_search_counter c = 0) ∧
    (∀ c, reset_search_counter (reset_search_counter c) = reset_search_counter c) ∧
    (∀ (oracle : Oracle) (query : String) (r a count : Nat),
      ((run_research_loop oracle query r a count).1.filter Event.isReset).length =
        ((run_research_loop oracle query r a count).1.filter Event.isRun).length) ∧
    (∀ (oracle : Oracle) (query : String) (count i c : Nat),
      Event.attemptRun i c ∈ (run_research oracle query count).1 → c = 0) :=
  ⟨fun _ => rfl, fun _ => rfl,
   fun oracle query r a count => filter_reset_eq_run oracle query r a count,
   fun oracle query count i c h =>
     attemptRun_count_zero oracle query max_retries 0 count i c h⟩

theorem reset_fresh_budget_witness :
    Event.attemptRun 0 0 ∈
        (run_research (fun _ _ c => (AttemptResult.ok "x", c)) "q" 7).1 ∧
      (0 : Nat) = 0 :=
  ⟨by decide,
   reset_fresh_budget.2.2.2 (fun _ _ c => (AttemptResult.ok "x", c)) "q" 7 0 0 (by decide)⟩

/-- C4: backoff policy of the retry controller.  The only wait before
attempt `i` begins its work is the in-attempt sleep `retry_delay * i`
(absent for attempt 0); a rate-limited failure at attempt `i` with
attempts remaining adds a handler sleep of `retry_delay * (i + 1)`
before the fresh attempt, and a generic failure adds the fixed handler
sleep `retry_delay`. -/
theorem retry_backoff (oracle : Oracle) (query : String)
    (r attempt count : Nat) (e : Exc) (c2 : Nat) :
    ((run_research_loop oracle query (r + 1) attempt count).1.take
        (if attempt > 0 then 2 else 1) =
      Event.resetEv ::
        (if attempt > 0 then [Event.sleepEv (retry_delay * attempt)] else [])) ∧
    (oracle query attempt 0 = (AttemptResult.exn e, c2) →
      isRateLimitError (toLowerStr e.msg) = true →
      attempt < max_retries - 1 →
      (run_research_loop oracle query (r + 1) attempt count).1 =
        (Event.resetEv ::
            (if attempt > 0 then [Event.sleepEv (retry_delay * attempt)] else []) ++
          [Event.attemptRun attempt 0]) ++
          Event.sleepEv (retry_delay * (attempt + 1)) ::
            (run_research_loop oracle query r (attempt + 1) c2).1) ∧
    (oracle query attempt 0 = (AttemptResult.exn e, c2) →
      isRateLimitError (toLowerStr e.msg) = false →
      attempt < max_retries - 1 →
      (run_research_loop oracle query (r + 1) attempt count).1 =
        (Event.resetEv ::
            (if attempt > 0 then [Event.sleepEv (retry_delay * attempt)] else []) ++
          [Event.attemptRun attempt 0]) ++
          Event.sleepEv retry_delay ::
            (run_research_loop oracle query r (attempt + 1) c2).1) := by
  refine ⟨?_, ?_, ?_⟩
  · unfold run_research_loop
    rcases hor : oracle query attempt 0 with ⟨res, c2x⟩
    rcases res with raw | ex
    · by_cases hlen : raw.length < 500 <;>
        by_cases ha : attempt > 0 <;>
          simp [reset_search_counter, hor, hlen, ha]
    · by_cases hrl : isRateLimitError (toLowerStr ex.msg)
      · by_cases hatt : attempt < max_retries - 1 <;>
          by_cases ha : attempt > 0 <;>
            simp [reset_search_counter, hor, hrl, hatt, ha]
      · by_cases hatt : attempt < max_retries - 1
        · by_cases ha : attempt > 0 <;>
            simp [reset_search_counter, hor, hrl, hatt, ha]
        · by_cases him : strContainsSub ex.tyName "ImportError" = true <;>
            by_cases hva : strContainsSub ex.tyName "ValueError" = true <;>
              by_cases ha : attempt > 0 <;>
                simp [reset_search_counter, hor, hrl, hatt, him, hva, ha]
  · intro h hrl hatt
    conv_lhs => unfold run_research_loop
    simp [reset_search_counter, h, hrl, hatt]
  · intro h hrl hatt
    conv_lhs => unfold run_research_loop
    simp [reset_search_counter, h, hrl, hatt]

theorem retry_backoff_witness :
    ((fun (_ : String) (_ c : Nat) =>
        (AttemptResult.exn ⟨"Exception", "Rate limit exceeded"⟩, c)) "q" 0 0 =
      (AttemptResult.exn ⟨"Exception", "Rate limit exceeded"⟩, 0)) ∧
    isRateLimitError (toLowerStr "Rate limit exceeded") = true ∧
    0 < max_retries - 1 ∧
    (run_research_loop
        (fun _ _ c => (AttemptResult.exn ⟨"Exception", "Rate limit exceeded"⟩, c))
        "q" 3 0 0).1 =
      (Event.resetEv :: (if 0 > 0 then [Event.sleepEv (retry_delay * 0)] else []) ++
        [Event.attemptRun 0 0]) ++
        Event.sleepEv (retry_delay * (0 + 1)) ::
          (run_research_loop
            (fun _ _ c => (AttemptResult.exn ⟨"Exception", "Rate limit exceeded"⟩, c))
            "q" 2 1 0).1 :=
  ⟨rfl, by decide, by decide,
   (retry_backoff
       (fun _ _ c => (AttemptResult.exn ⟨"Exception", "Rate limit exceeded"⟩, c))
       "q" 2 0 0 ⟨"Exception", "Rate limit exceeded"⟩ 0).2.1 rfl (by decide) (by decide)⟩

/-- Helper: `create_research_crew` with the LinkUp credential missing
raises the ValueError naming it. -/
theorem create_crew_missing_linkup (env : Env)
    (hA : env.linkupAvailable = true) (hG : envTruthy env.geminiApiKey = true)
    (hK : envTruthy env.linkupApiKey = false) :
    create_research_crew env =
      Except.error ⟨"ValueError", "LINKUP_API_KEY environment variable not set"⟩ := by
  unfold create_research_crew
  simp [hA, hG, hK]

/-- C8 counterexample: with only the search-provider credential
missing, the final message of `run_research` is exactly
"Configuration Error: LINKUP_API_KEY environment variable not set".
It names the missing configuration, but contains none of the
remediation phrasing the program uses elsewhere ("install",
"Troubleshooting", "Please", "check"), refuting the claim that the
final message gives remediation steps. -/
theorem missing_credential_no_remediation :
    (run_research (attempt_oracle ⟨true, some "gemini-key", none⟩
        (fun _ _ c => (AttemptResult.ok "", c))) "q" 0).2 =
      Except.ok "Configuration Error: LINKUP_API_KEY environment variable not set" ∧
    strContainsSub "Configuration Error: LINKUP_API_KEY environment variable not set"
        "install" = false ∧
    strContainsSub "Configuration Error: LINKUP_API_KEY environment variable not set"
        "Troubleshooting" = false ∧
    strContainsSub "Configuration Error: LINKUP_API_KEY environment variable not set"
        "Please" = false ∧
    strContainsSub "Configuration Error: LINKUP_API_KEY environment variable not set"
        "check" = false :=
  ⟨rfl, by decide, by decide, by decide, by decide⟩

/-- C8 amended: when the search-provider credential is missing (library
importable, Gemini key present), every pipeline attempt fails with the
configuration ValueError; the controller runs all 3 attempts, sleeping
the fixed generic handler delay after each retried failure plus the
escalating in-attempt delay; the final returned message names the
missing configuration (and no exception or stack trace crosses the
boundary), but it contains no remediation steps. -/
theorem missing_credential_retries (env : Env) (kick : Oracle)
    (query : String) (count : Nat)
    (hA : env.linkupAvailable = true) (hG : envTruthy env.geminiApiKey = true)
    (hK : envTruthy env.linkupApiKey = false) :
    run_research (attempt_oracle env kick) query count =
      ([Event.resetEv, Event.attemptRun 0 0, Event.sleepEv 3,
        Event.resetEv, Event.sleepEv 3, Event.attemptRun 1 0, Event.sleepEv 3,
        Event.resetEv, Event.sleepEv 6, Event.attemptRun 2 0],
       Except.ok "Configuration Error: LINKUP_API_KEY environment variable not set") := by
  have hc := create_crew_missing_linkup env hA hG hK
  have hrl : isRateLimitError
      (toLowerStr "LINKUP_API_KEY environment variable not set") = false := by decide
  have him : strContainsSub "ValueError" "ImportError" = false := by decide
  have hva : strContainsSub "ValueError" "ValueError" = true := by decide
  simp [run_research, run_research_loop, attempt_oracle, hc, reset_search_counter,
    hrl, him, hva, max_retries, retry_delay, configErrorMsg]

theorem missing_credential_retries_witness :
    (Env.linkupAvailable ⟨true, some "gemini-key", none⟩ = true) ∧
      envTruthy (Env.geminiApiKey ⟨true, some "gemini-key", none⟩) = true ∧
      envTruthy (Env.linkupApiKey ⟨true, some "gemini-key", none⟩) = false ∧
      run_research (attempt_oracle ⟨true, some "gemini-key", none⟩
          (fun _ _ c => (AttemptResult.ok "", c))) "q" 0 =
        ([Event.resetEv, Event.attemptRun 0 0, Event.sleepEv 3,
          Event.resetEv, Event.sleepEv 3, Event.attemptRun 1 0, Event.sleepEv 3,
          Event.resetEv, Event.sleepEv 6, Event.attemptRun 2 0],
         Except.ok "Configuration Error: LINKUP_API_KEY environment variable not set") :=
  ⟨rfl, by decide, by decide,
   missing_credential_retries ⟨true, some "gemini-key", none⟩
     (fun _ _ c => (AttemptResult.ok "", c)) "q" 0 rfl (by decide) (by decide)⟩

end DeepResearch
